import Mathlib

/-!
Verification of the kcp-libuv session layer (KCPConnection / KCPServer /
KCPClient) against its natural-language specification.

The C++ sources are shallowly embedded: each member function of
`kcp_connection.cpp`, `kcp_server.cpp` and `kcp_client.cpp` that the claims
touch becomes a pure Lean function on an explicit state record.  The external
ikcp engine (out of scope for the spec) is modelled as a trace of the calls
the session layer makes into it (`EngineOp`) plus an abstract queue of
decoded application messages; what the engine decodes from a datagram is a
parameter `decode` of the relevant operations, so every theorem holds for an
arbitrary engine behaviour.  Observable side effects (user callbacks, raw
UDP sends, the oversize warning) are collected in an `Event` trace.
Timestamps are `uint32_t` in the source; they are modelled as `Nat` with
arithmetic taken mod `2^32` exactly where the C code's unsigned arithmetic
wraps.
-/

namespace KCPLibuv

/-- `2^32`, the modulus of the `uint32_t` arithmetic used for timestamps. -/
def u32 : Nat := 4294967296

/-- Wraparound `uint32_t` subtraction `a - b` as performed by C on
`uint32_t` operands. -/
def u32sub (a b : Nat) : Nat := (u32 + a % u32 - b % u32) % u32

/-- Connection state enum `KCPConnection::State` from `kcp_connection.h`. -/
inductive ConnState
  | CONNECTING
  | CONNECTED
  | DISCONNECTING
  | DISCONNECTED
deriving DecidableEq, Repr

/-- The KCP tunables a multiplexer applies to every engine it creates:
the parameters of `init_kcp` (`ikcp_nodelay`, `ikcp_wndsize`,
`ikcp_setmtu`), captured as one record. -/
structure KCPConfig where
  nodelay : Int
  interval : Int
  resend : Int
  nc : Int
  sndwnd : Int
  rcvwnd : Int
  mtu : Int
deriving DecidableEq, Repr

/-- One call made by the session layer into the external ikcp engine.
The engine itself is out of the spec's scope; recording the calls is the
observable footprint of the session layer on it. -/
inductive EngineOp
  | configure (cfg : KCPConfig)
  | input (data : List Nat)
  | send (data : List Nat)
  | tick (now : Nat)
deriving DecidableEq, Repr

/-- The modelled state of one ikcp control block: the trace of calls fed
into it, and the queue of fully reassembled application messages that
`ikcp_recv` would hand back. -/
structure Engine where
  ops : List EngineOp
  recvQueue : List (List Nat)
deriving DecidableEq, Repr

/-- Abstract peer address (`struct sockaddr`). -/
structure Addr where
  host : Nat
  port : Nat
deriving DecidableEq, Repr

/-- State of `KCPConnection` (kcp_connection.h): session id `conv_`, the
peer address copied at construction, `state_`, `last_active_time_`, the
owned engine (`kcp_`, `none` once released), whether the libuv UDP handle
pointer is non-null, and whether the data/close `std::function` callbacks
are set. -/
structure KCPConnection where
  conv : Nat
  addr : Addr
  state : ConnState
  last_active_time : Nat
  kcp : Option Engine
  udp_handle : Bool
  hasDataCallback : Bool
  hasCloseCallback : Bool
deriving DecidableEq, Repr

/-- Observable side effects of the session layer: the user "new session"
notification, a data-callback delivery, a close-callback invocation, a raw
datagram handed to `uv_udp_send`, and the oversize warning of
`send_udp_direct`. -/
inductive Event
  | newSession (conv : Nat)
  | dataCb (conv : Nat) (data : List Nat)
  | closeCb (conv : Nat)
  | udpSend (conv : Nat) (data : List Nat)
  | warnOversize (conv : Nat) (len : Nat)
deriving DecidableEq, Repr

/-- Append one call to the engine's trace. -/
def Engine.applyOp (e : Engine) (op : EngineOp) : Engine :=
  { e with ops := e.ops ++ [op] }

/-- `KCPConnection::KCPConnection`: copies the peer address, starts in
`CONNECTING` with `last_active_time_ = 0`, and creates the engine
(`ikcp_create`); callbacks are initially unset. -/
def KCPConnection.create (conv : Nat) (udp : Bool) (addr : Addr) : KCPConnection :=
  { conv := conv
    addr := addr
    state := ConnState.CONNECTING
    last_active_time := 0
    kcp := some { ops := [], recvQueue := [] }
    udp_handle := udp
    hasDataCallback := false
    hasCloseCallback := false }

/-- `KCPConnection::init_kcp`: applies the tunables to the engine
(`ikcp_nodelay`, `ikcp_wndsize`, `ikcp_setmtu`), recorded as one
`configure` call. -/
def KCPConnection.init_kcp (c : KCPConnection) (cfg : KCPConfig) : KCPConnection :=
  { c with kcp := c.kcp.map (fun e => e.applyOp (EngineOp.configure cfg)) }

/-- `KCPConnection::update_active_time`. -/
def KCPConnection.update_active_time (c : KCPConnection) (current : Nat) : KCPConnection :=
  { c with last_active_time := current }

/-- `KCPConnection::send` (reliable path): `if (!kcp_ || state_ != CONNECTED)
return -1;` then `ikcp_send` enqueues the payload.  `ikcp_send`'s own
capacity failure is abstracted as acceptance; no claim depends on it. -/
def KCPConnection.send (c : KCPConnection) (data : List Nat) : KCPConnection × Int :=
  match c.kcp with
  | none => (c, -1)
  | some e =>
    if c.state ≠ ConnState.CONNECTED then (c, -1)
    else ({ c with kcp := some (e.applyOp (EngineOp.send data)) }, 0)

/-- `KCPConnection::output`: hands the buffer to `uv_udp_send`.  The
transport's synchronous result is the parameter `tr`: on `tr < 0` the
datagram is not sent and `tr` is returned, otherwise the datagram goes out
and `output` returns 0. -/
def KCPConnection.output (c : KCPConnection) (data : List Nat) (tr : Int) :
    List Event × Int :=
  if c.udp_handle = false then ([], -1)
  else if tr < 0 then ([], tr)
  else ([Event.udpSend c.conv data], 0)

/-- `KCPConnection::send_udp_direct`: error unless the UDP handle exists and
the state is `CONNECTED`; payloads longer than 1472 bytes only produce a
warning and are still sent unfragmented through `output`. -/
def KCPConnection.send_udp_direct (c : KCPConnection) (data : List Nat) (tr : Int) :
    List Event × Int :=
  if c.udp_handle = false ∨ c.state ≠ ConnState.CONNECTED then ([], -1)
  else
    let warn : List Event :=
      if 1472 < data.length then [Event.warnOversize c.conv data.length] else []
    let r := c.output data tr
    if r.2 < 0 then (warn ++ r.1, r.2) else (warn ++ r.1, 0)

/-- `KCPConnection::input`: guarded only by `if (!kcp_)` — the state is NOT
checked — then `ikcp_input` feeds the datagram to the engine.  Whatever
messages the engine reassembles from it is the abstract `decode data`,
appended to the receive queue.  (`ikcp_input`'s int result is discarded by
every caller in the repository and is not modelled.) -/
def KCPConnection.input (c : KCPConnection) (data : List Nat)
    (decode : List Nat → List (List Nat)) : KCPConnection :=
  match c.kcp with
  | none => c
  | some e =>
    { c with kcp := some { ops := e.ops ++ [EngineOp.input data]
                           recvQueue := e.recvQueue ++ decode data } }

/-- `KCPConnection::update`: guarded only by `if (!kcp_)` — the state is NOT
checked — then `ikcp_update(kcp_, current)`. -/
def KCPConnection.update (c : KCPConnection) (current : Nat) : KCPConnection :=
  match c.kcp with
  | none => c
  | some e => { c with kcp := some (e.applyOp (EngineOp.tick current)) }

/-- The drain loop of `KCPConnection::recv`: `ikcp_recv` into the 64 KiB
`recv_buffer_` until it reports no data.  A message larger than the buffer
makes `ikcp_recv` fail without dequeuing, which breaks the loop; smaller
messages are dequeued in order.  Returns (delivered, remaining). -/
def drainQueue : List (List Nat) → List (List Nat) × List (List Nat)
  | [] => ([], [])
  | m :: t =>
    if m.length ≤ 65536 then
      let r := drainQueue t
      (m :: r.1, r.2)
    else ([], m :: t)

/-- `KCPConnection::recv`: drains the engine's receive queue, invoking the
data callback once per message when one is registered; returns whether any
message was drained. -/
def KCPConnection.recv (c : KCPConnection) : KCPConnection × List Event × Bool :=
  match c.kcp with
  | none => (c, [], false)
  | some e =>
    let d := drainQueue e.recvQueue
    let evs : List Event :=
      if c.hasDataCallback then d.1.map (fun m => Event.dataCb c.conv m) else []
    ({ c with kcp := some { e with recvQueue := d.2 } }, evs, !d.1.isEmpty)

/-- `KCPConnection::is_timeout`: `(current - last_active_time_) > timeout`
on `uint32_t` operands, i.e. wraparound subtraction. -/
def KCPConnection.is_timeout (c : KCPConnection) (current timeout : Nat) : Bool :=
  timeout < u32sub current c.last_active_time

/-- `KCPConnection::close`: no-op when already `DISCONNECTED`; otherwise
`CONNECTING`/`CONNECTED` first step to `DISCONNECTING`, then the state is
set to `DISCONNECTED` unconditionally and the close callback (when
registered) is invoked once.  The third component records the successive
assignments to `state_` made during the call. -/
def KCPConnection.close (c : KCPConnection) :
    KCPConnection × List Event × List ConnState :=
  if c.state = ConnState.DISCONNECTED then (c, [], [])
  else
    let mid : List ConnState :=
      if c.state = ConnState.CONNECTING ∨ c.state = ConnState.CONNECTED then
        [ConnState.DISCONNECTING]
      else []
    let c2 := { c with state := ConnState.DISCONNECTED }
    let evs : List Event :=
      if c.hasCloseCallback then [Event.closeCb c.conv] else []
    (c2, evs, mid ++ [ConnState.DISCONNECTED])

/-- `n` successive calls of `close()` on the same connection, with the
emitted close-callback events concatenated. -/
def closeN : Nat → KCPConnection → KCPConnection × List Event
  | 0, c => (c, [])
  | Nat.succ n, c =>
    let r1 := c.close
    let r2 := closeN n r1.1
    (r2.1, r1.2.1 ++ r2.2)

/- ### The server's session table (`std::map<uint32_t, shared_ptr<KCPConnection>>`) -/

/-- `connections_.find(conv)` on the association-list model of the map. -/
def lookupConn : List (Nat × KCPConnection) → Nat → Option KCPConnection
  | [], _ => none
  | (k, c) :: t, conv => if k = conv then some c else lookupConn t conv

/-- `connections_.erase(conv)`: removes the (unique) entry with that key. -/
def eraseConn : List (Nat × KCPConnection) → Nat → List (Nat × KCPConnection)
  | [], _ => []
  | (k, c) :: t, conv => if k = conv then t else (k, c) :: eraseConn t conv

/-- `connections_[conv] = conn`: replaces the entry when the key is present,
appends it otherwise. -/
def insertConn : List (Nat × KCPConnection) → Nat → KCPConnection →
    List (Nat × KCPConnection)
  | [], conv, c => [(conv, c)]
  | (k, c0) :: t, conv, c =>
    if k = conv then (conv, c) :: t else (k, c0) :: insertConn t conv c

/-- Number of entries carrying a given key. -/
def countKey (l : List (Nat × KCPConnection)) (conv : Nat) : Nat :=
  (l.filter (fun p => p.1 = conv)).length

/-- State of `KCPServer` (kcp_server.h): the run flag, the libuv timer and
receive-start status, whether `uv_stop` has been issued, the liveness
`timeout_`, the captured KCP tunables, the session table and whether the
user registered a new-connection callback. -/
structure KCPServer where
  running : Bool
  timerActive : Bool
  recvActive : Bool
  loopStopped : Bool
  timeout : Nat
  config : KCPConfig
  connections : List (Nat × KCPConnection)
  hasNewConnectionCallback : Bool
deriving DecidableEq, Repr

/-- `KCPServer::KCPServer`: defaults from the constructor initializer list
(`timeout_(30000)`, nodelay 1 / interval 10 / resend 2 / nc 1 /
windows 128 / mtu 1400), empty table, nothing scheduled yet. -/
def KCPServer.create : KCPServer :=
  { running := false
    timerActive := false
    recvActive := false
    loopStopped := false
    timeout := 30000
    config := { nodelay := 1, interval := 10, resend := 2, nc := 1
                sndwnd := 128, rcvwnd := 128, mtu := 1400 }
    connections := []
    hasNewConnectionCallback := false }

/-- `KCPServer::stop`: returns immediately unless running; otherwise stops
the timer (`uv_timer_stop`), the UDP reception (`uv_udp_recv_stop`) and
the loop (`uv_stop`).  It touches no connection and emits no event. -/
def KCPServer.stop (s : KCPServer) : KCPServer × List Event :=
  if s.running = false then (s, [])
  else
    ({ s with running := false, timerActive := false, recvActive := false
              loopStopped := true }, [])

/-- `KCPServer::~KCPServer`: calls `stop()`, then `connections_.clear()`,
which destroys every `KCPConnection` (running its destructor, which only
releases the engine) without ever calling `close()` — so no close callback
fires. -/
def KCPServer.destroy (s : KCPServer) : KCPServer × List Event :=
  let r := s.stop
  ({ r.1 with connections := [] }, r.2)

/-- `KCPServer::remove_connection`: erase the entry when present. -/
def KCPServer.remove_connection (s : KCPServer) (conv : Nat) : KCPServer :=
  { s with connections := eraseConn s.connections conv }

/-- `KCPServer::on_connection_close` — the close callback the server
registers on every connection it creates: removes the connection's id from
the table. -/
def KCPServer.on_connection_close (s : KCPServer) (conv : Nat) : KCPServer :=
  s.remove_connection conv

/-- `KCPServer::find_or_create_connection`: returns the existing entry, or
builds a new `KCPConnection` bound to `addr`, applies the captured config
(`init_kcp`), marks it `CONNECTED`, stamps `last_active_time`, registers
the server's data/close callback adapters, stores it, and fires the
user-supplied new-connection notification when one is registered. -/
def KCPServer.find_or_create_connection (s : KCPServer) (conv : Nat) (addr : Addr)
    (now : Nat) : KCPServer × List Event :=
  match lookupConn s.connections conv with
  | some _ => (s, [])
  | none =>
    let conn := KCPConnection.create conv true addr
    let conn := conn.init_kcp s.config
    let conn := { conn with state := ConnState.CONNECTED }
    let conn := conn.update_active_time now
    let conn := { conn with hasDataCallback := true, hasCloseCallback := true }
    let s1 := { s with connections := insertConn s.connections conv conn }
    let evs : List Event :=
      if s.hasNewConnectionCallback then [Event.newSession conv] else []
    (s1, evs)

/-- `*(uint32_t *)data` on a little-endian host: the first four bytes of the
datagram, least significant first. -/
def readU32LE (data : List Nat) : Nat :=
  match data with
  | b0 :: b1 :: b2 :: b3 :: _ =>
    b0 % 256 + 256 * (b1 % 256) + 65536 * (b2 % 256) + 16777216 * (b3 % 256)
  | _ => 0

/-- `KCPServer::handle_udp_data`: drops datagrams shorter than the 24-byte
KCP header with no side effect; otherwise parses the conv, finds or creates
the connection, stamps its activity time, feeds the datagram to the engine
and drains any reassembled messages. -/
def KCPServer.handle_udp_data (s : KCPServer) (data : List Nat) (addr : Addr)
    (now : Nat) (decode : List Nat → List (List Nat)) : KCPServer × List Event :=
  if data.length < 24 then (s, [])
  else
    let conv := readU32LE data
    let r := s.find_or_create_connection conv addr now
    match lookupConn r.1.connections conv with
    | none => (r.1, r.2)
    | some conn =>
      let conn := conn.update_active_time now
      let conn := conn.input data decode
      let r2 := conn.recv
      ({ r.1 with connections := insertConn r.1.connections conv r2.1 },
       r.2 ++ r2.2.1)

/-- The loop body of `KCPServer::update_connections`, walking the entries
the iteration visits while carrying the actual table.  On a timed-out
connection the code calls `close()` — whose close callback
(`on_connection_close`) erases the entry from the map, invalidating the
loop's iterator — and then executes `it = connections_.erase(it)`.  The
boolean result records whether that second erase ever executed while the
iterator's entry was already gone from the table (i.e. a double erase on an
invalidated iterator, undefined behaviour in C++). -/
def sweepGo (now timeout : Nat) :
    List (Nat × KCPConnection) → List (Nat × KCPConnection) →
    List (Nat × KCPConnection) × List Event × Bool
  | [], table => (table, [], false)
  | (k, conn) :: rest, table =>
    if conn.is_timeout now timeout then
      let rc := conn.close
      let table1 := if conn.hasCloseCallback then eraseConn table k else table
      let stale := (lookupConn table1 k).isNone
      let table2 := eraseConn table1 k
      let r := sweepGo now timeout rest table2
      (r.1, rc.2.1 ++ r.2.1, stale || r.2.2)
    else
      let c1 := conn.update now
      let r2 := c1.recv
      let table1 := insertConn table k r2.1
      let r := sweepGo now timeout rest table1
      (r.1, r2.2.1 ++ r.2.1, r.2.2)

/-- `KCPServer::update_connections` (the periodic sweep): one pass over the
table at time `now`.  Returns the resulting server, the emitted events, and
whether the pass performed an erase through an already-invalidated iterator
(see `sweepGo`). -/
def KCPServer.update_connections (s : KCPServer) (now : Nat) :
    KCPServer × List Event × Bool :=
  let r := sweepGo now s.timeout s.connections s.connections
  ({ s with connections := r.1 }, r.2.1, r.2.2)

/- ### Client (`kcp_client.cpp`) -/

/-- State of `KCPClient`: the run flag, the captured tunables and the single
optional connection. -/
structure KCPClient where
  running : Bool
  config : KCPConfig
  connection : Option KCPConnection
deriving DecidableEq, Repr

/-- `KCPClient::handle_udp_data`: with a connection present, stamps its
activity time, feeds the raw bytes to the engine (no address check, no
conv check, no length check) and drains reassembled messages. -/
def KCPClient.handle_udp_data (cl : KCPClient) (data : List Nat) (now : Nat)
    (decode : List Nat → List (List Nat)) : KCPClient × List Event :=
  match cl.connection with
  | none => (cl, [])
  | some c =>
    let c := c.update_active_time now
    let c := c.input data decode
    let r := c.recv
    ({ cl with connection := some r.1 }, r.2.1)

/-- `KCPClient::on_udp_recv`: drops the receive-error case (`nread < 0`,
modelled by `err`), empty reads, reads without a sender address, and
truncated reads (`UV_UDP_PARTIAL`); everything else goes to
`handle_udp_data` unmodified. -/
def KCPClient.on_udp_recv (cl : KCPClient) (err : Bool) (data : List Nat)
    (addrPresent : Bool) (truncated : Bool) (now : Nat)
    (decode : List Nat → List (List Nat)) : KCPClient × List Event :=
  if err then (cl, [])
  else if data.length = 0 ∨ addrPresent = false then (cl, [])
  else if truncated then (cl, [])
  else cl.handle_udp_data data now decode

/-! ### Theorems -/

/-- Wraparound subtraction undoes wraparound addition: for `t0 < 2^32`,
`((t0 + d) mod 2^32) - t0` computed on `uint32_t` is `d mod 2^32`. -/
lemma u32sub_add_mod (t0 d : Nat) (ht0 : t0 < u32) :
    u32sub ((t0 + d) % u32) t0 = d % u32 := by
  unfold u32sub u32 at *
  omega

/-- Sample connection for the C6 counterexample: last active at `t0 = 5`. -/
def c6bad : KCPConnection :=
  { conv := 1, addr := { host := 0, port := 0 }, state := ConnState.CONNECTED
    last_active_time := 5, kcp := some { ops := [], recvQueue := [] }
    udp_handle := true, hasDataCallback := false, hasCloseCallback := false }

/-- C6 counterexample: the claim asserts `isTimedOut(t0 + timeout - 1,
timeout)` is false for every timeout value; at `t0 = 5`, `timeout = 0`,
`now = t0 + timeout - 1 = 4` the code returns true, because the unsigned
subtraction `4 - 5` wraps to `2^32 - 1 > 0`. -/
theorem C6_counterexample : c6bad.is_timeout 4 0 = true := by decide

/-- C6 (amended): for every timeout with `1 ≤ timeout ≤ 2^32 - 2` and every
last-active stamp `t0 < 2^32`, `is_timeout (t0 + timeout + 1) timeout` is
true and `is_timeout (t0 + timeout - 1) timeout` is false, with both probe
times reduced mod `2^32` — so the property holds across a timestamp
wraparound boundary. -/
theorem C6_is_timeout_boundary (c : KCPConnection) (t0 timeout : Nat)
    (hc : c.last_active_time = t0) (ht0 : t0 < u32)
    (h1 : 1 ≤ timeout) (h2 : timeout ≤ u32 - 2) :
    c.is_timeout ((t0 + timeout + 1) % u32) timeout = true ∧
    c.is_timeout ((t0 + timeout - 1) % u32) timeout = false := by
  have hu : u32 = 4294967296 := rfl
  constructor
  · unfold KCPConnection.is_timeout
    rw [hc, show t0 + timeout + 1 = t0 + (timeout + 1) by omega,
        u32sub_add_mod t0 (timeout + 1) ht0,
        Nat.mod_eq_of_lt (by omega)]
    simp
  · unfold KCPConnection.is_timeout
    rw [hc, show t0 + timeout - 1 = t0 + (timeout - 1) by omega,
        u32sub_add_mod t0 (timeout - 1) ht0,
        Nat.mod_eq_of_lt (by omega)]
    simp

/-- Sample connection last active just below the `2^32` wrap point. -/
def c6wit : KCPConnection := { c6bad with last_active_time := 4294967000 }

/-- Witness for `C6_is_timeout_boundary` at a concrete wraparound input:
`t0 = 4294967000`, `timeout = 30000`, so `t0 + timeout` wraps mod `2^32`. -/
theorem C6_is_timeout_boundary_witness :
    c6wit.last_active_time = 4294967000 ∧ 4294967000 < u32 ∧
    1 ≤ 30000 ∧ 30000 ≤ u32 - 2 ∧
    (c6wit.is_timeout ((4294967000 + 30000 + 1) % u32) 30000 = true ∧
     c6wit.is_timeout ((4294967000 + 30000 - 1) % u32) 30000 = false) :=
  ⟨rfl, by decide, by decide, by decide,
   C6_is_timeout_boundary c6wit 4294967000 30000 rfl (by decide) (by decide)
     (by decide)⟩

/-- C7: a datagram shorter than the 24-byte minimum KCP header is dropped by
`handle_udp_data` with no side effect at all: the server (its whole session
table included — so no session created, no `last_active` changed, no engine
input) is returned unchanged and no event is emitted. -/
theorem C7_short_datagram_dropped (s : KCPServer) (data : List Nat) (addr : Addr)
    (now : Nat) (decode : List Nat → List (List Nat)) (h : data.length < 24) :
    s.handle_udp_data data addr now decode = (s, []) := by
  unfold KCPServer.handle_udp_data
  simp [h]

/-- Sample running server with an empty table. -/
def c7server : KCPServer := { KCPServer.create with running := true }

/-- Witness for `C7_short_datagram_dropped` on a concrete 3-byte datagram. -/
theorem C7_short_datagram_dropped_witness :
    ([(1 : Nat), 2, 3].length < 24) ∧
    c7server.handle_udp_data [1, 2, 3] { host := 8, port := 9 } 100
      (fun d => [[d.length]]) = (c7server, []) :=
  ⟨by decide,
   C7_short_datagram_dropped c7server [1, 2, 3] { host := 8, port := 9 } 100
     (fun d => [[d.length]]) (by decide)⟩

/-- C8: `send_udp_direct` returns an error for any session not in
`CONNECTED` state; on a `CONNECTED` session with a live UDP handle and a
successful transport write it succeeds and hands the whole payload,
unfragmented, to the transport in a single datagram, preceded by a
size-exceeded warning exactly when the payload is longer than 1472 bytes —
the oversize case is a warning, never a failure. -/
theorem C8_send_udp_direct_policy (c : KCPConnection) (data : List Nat) (tr : Int) :
    (c.state ≠ ConnState.CONNECTED → c.send_udp_direct data tr = ([], -1)) ∧
    (c.state = ConnState.CONNECTED → c.udp_handle = true → 0 ≤ tr →
      c.send_udp_direct data tr =
        ((if 1472 < data.length then [Event.warnOversize c.conv data.length]
          else []) ++ [Event.udpSend c.conv data], 0)) := by
  constructor
  · intro h
    unfold KCPConnection.send_udp_direct
    simp [h]
  · intro h1 h2 h3
    have h4 : ¬ tr < 0 := by omega
    unfold KCPConnection.send_udp_direct KCPConnection.output
    simp [h1, h2, h4]

/-- Sample `CONNECTED` connection for the C8 witness. -/
def c8conn : KCPConnection :=
  { conv := 9, addr := { host := 1, port := 1 }, state := ConnState.CONNECTED
    last_active_time := 0, kcp := some { ops := [], recvQueue := [] }
    udp_handle := true, hasDataCallback := true, hasCloseCallback := true }

/-- A 2000-byte payload: larger than the 1472-byte segment bound. -/
def c8data : List Nat := List.replicate 2000 7

/-- The same connection after close: not `CONNECTED`. -/
def c8down : KCPConnection := { c8conn with state := ConnState.DISCONNECTED }

/-- Witness for `C8_send_udp_direct_policy`: the disconnected session gets
an error; the connected one sends the oversized payload whole, with the
warning. -/
theorem C8_send_udp_direct_policy_witness :
    (c8down.state ≠ ConnState.CONNECTED ∧
      c8down.send_udp_direct c8data 0 = ([], -1)) ∧
    (c8conn.state = ConnState.CONNECTED ∧ c8conn.udp_handle = true ∧
      (0 : Int) ≤ 0 ∧
      c8conn.send_udp_direct c8data 0 =
        ((if 1472 < c8data.length then
            [Event.warnOversize c8conn.conv c8data.length]
          else []) ++ [Event.udpSend c8conn.conv c8data], 0)) :=
  ⟨⟨by decide, (C8_send_udp_direct_policy c8down c8data 0).1 (by decide)⟩,
   ⟨rfl, rfl, by decide,
    (C8_send_udp_direct_policy c8conn c8data 0).2 rfl rfl (by decide)⟩⟩

/-- Once a connection is `DISCONNECTED`, any number of further `close()`
calls is a pure no-op emitting nothing. -/
lemma closeN_disconnected (n : Nat) (c : KCPConnection)
    (h : c.state = ConnState.DISCONNECTED) : closeN n c = (c, []) := by
  induction n with
  | zero => rfl
  | succ n ih => simp [closeN, KCPConnection.close, h, ih]

/-- A `close()` on a not-yet-disconnected state only flips the state. -/
lemma close_fst (c : KCPConnection) (hst : c.state ≠ ConnState.DISCONNECTED) :
    (c.close).1 = { c with state := ConnState.DISCONNECTED } := by
  unfold KCPConnection.close
  simp [hst]

/-- C5: with a registered close callback, calling `close()` N > 1 times on a
not-yet-disconnected session fires the close callback exactly once; the
first call alone fires it and leaves the state `DISCONNECTED`; every later
call is a no-op; and from `CONNECTING`/`CONNECTED` the first call steps
through `DISCONNECTING` to `DISCONNECTED` synchronously within that call. -/
theorem C5_close_idempotent (c : KCPConnection) (N : Nat)
    (hcb : c.hasCloseCallback = true) (hst : c.state ≠ ConnState.DISCONNECTED)
    (hN : 1 < N) :
    (closeN N c).2.count (Event.closeCb c.conv) = 1 ∧
    (c.close).1.state = ConnState.DISCONNECTED ∧
    (c.close).2.1 = [Event.closeCb c.conv] ∧
    (c.close).1.close = ((c.close).1, [], []) ∧
    ((c.state = ConnState.CONNECTING ∨ c.state = ConnState.CONNECTED) →
      (c.close).2.2 = [ConnState.DISCONNECTING, ConnState.DISCONNECTED]) := by
  have hstate : (c.close).1.state = ConnState.DISCONNECTED := by
    rw [close_fst c hst]
  have hevs : (c.close).2.1 = [Event.closeCb c.conv] := by
    unfold KCPConnection.close
    simp [hst, hcb]
  have hnoop : ∀ d : KCPConnection, d.state = ConnState.DISCONNECTED →
      d.close = (d, [], []) := by
    intro d hd
    unfold KCPConnection.close
    simp [hd]
  refine ⟨?_, hstate, hevs, hnoop _ hstate, ?_⟩
  · obtain ⟨n, rfl⟩ : ∃ n, N = n + 1 := ⟨N - 1, by omega⟩
    have : closeN (n + 1) c = ((c.close).1, (c.close).2.1) := by
      simp [closeN, closeN_disconnected n (c.close).1 hstate]
    rw [this, hevs]
    simp
  · intro h
    unfold KCPConnection.close
    simp only [hst, if_false]
    rcases h with h | h <;> simp [h]

/-- Sample `CONNECTED` connection with a registered close callback. -/
def c5conn : KCPConnection :=
  { conv := 5, addr := { host := 0, port := 0 }, state := ConnState.CONNECTED
    last_active_time := 0, kcp := some { ops := [], recvQueue := [] }
    udp_handle := true, hasDataCallback := true, hasCloseCallback := true }

/-- Witness for `C5_close_idempotent` with N = 3 calls. -/
theorem C5_close_idempotent_witness :
    c5conn.hasCloseCallback = true ∧ c5conn.state ≠ ConnState.DISCONNECTED ∧
    1 < 3 ∧
    ((closeN 3 c5conn).2.count (Event.closeCb c5conn.conv) = 1 ∧
     (c5conn.close).1.state = ConnState.DISCONNECTED ∧
     (c5conn.close).2.1 = [Event.closeCb c5conn.conv] ∧
     (c5conn.close).1.close = ((c5conn.close).1, [], []) ∧
     ((c5conn.state = ConnState.CONNECTING ∨
       c5conn.state = ConnState.CONNECTED) →
       (c5conn.close).2.2 = [ConnState.DISCONNECTING, ConnState.DISCONNECTED])) :=
  ⟨rfl, by decide, by decide,
   C5_close_idempotent c5conn 3 rfl (by decide) (by decide)⟩

/-- A `DISCONNECTED` session whose engine has not been released (the engine
is only released in the destructor). -/
def c3conn : KCPConnection :=
  { conv := 3, addr := { host := 0, port := 0 }
    state := ConnState.DISCONNECTED, last_active_time := 0
    kcp := some { ops := [], recvQueue := [] }, udp_handle := true
    hasDataCallback := false, hasCloseCallback := false }

/-- C3 counterexample: the claim says `input` on a `DISCONNECTED` session
has no effect on its engine; concretely, feeding a 24-byte datagram to a
disconnected session appends an `ikcp_input` call to its engine — `input`
checks only `kcp_`, never the state. -/
theorem C3_counterexample :
    c3conn.kcp = some { ops := [], recvQueue := [] } ∧
    (c3conn.input (List.replicate 24 0) (fun _ => [])).kcp =
      some { ops := [EngineOp.input (List.replicate 24 0)], recvQueue := [] } :=
  ⟨rfl, rfl⟩

/-- C3 (amended): on a `DISCONNECTED` session, `send` is a genuine no-op
returning the error −1; but `input` and `update` are guarded only by engine
existence, so on a disconnected session whose engine is still allocated
they do reach the engine (`ikcp_input` / `ikcp_update` run); the session's
state itself stays `DISCONNECTED` throughout. -/
theorem C3_disconnected_behaviour (c : KCPConnection) (e : Engine)
    (h : c.state = ConnState.DISCONNECTED) (he : c.kcp = some e)
    (data : List Nat) (decode : List Nat → List (List Nat)) (now : Nat) :
    c.send data = (c, -1) ∧
    (c.input data decode).state = ConnState.DISCONNECTED ∧
    (c.input data decode).kcp =
      some { ops := e.ops ++ [EngineOp.input data]
             recvQueue := e.recvQueue ++ decode data } ∧
    (c.update now).state = ConnState.DISCONNECTED ∧
    (c.update now).kcp = some (e.applyOp (EngineOp.tick now)) := by
  refine ⟨?_, ?_, ?_, ?_, ?_⟩
  · unfold KCPConnection.send
    simp [he, h]
  · unfold KCPConnection.input
    simp [he, h]
  · unfold KCPConnection.input
    simp [he]
  · unfold KCPConnection.update
    simp [he, h]
  · unfold KCPConnection.update
    simp [he, Engine.applyOp]

/-- Witness for `C3_disconnected_behaviour` on a concrete disconnected
session, datagram and clock. -/
theorem C3_disconnected_behaviour_witness :
    c3conn.state = ConnState.DISCONNECTED ∧
    c3conn.kcp = some { ops := [], recvQueue := [] } ∧
    (c3conn.send [1, 2, 3] = (c3conn, -1) ∧
     (c3conn.input [1, 2, 3] (fun _ => [[4]])).state = ConnState.DISCONNECTED ∧
     (c3conn.input [1, 2, 3] (fun _ => [[4]])).kcp =
       some { ops := [] ++ [EngineOp.input [1, 2, 3]]
              recvQueue := [] ++ [[4]] } ∧
     (c3conn.update 99).state = ConnState.DISCONNECTED ∧
     (c3conn.update 99).kcp =
       some (Engine.applyOp { ops := [], recvQueue := [] } (EngineOp.tick 99))) :=
  ⟨rfl, rfl,
   C3_disconnected_behaviour c3conn { ops := [], recvQueue := [] } rfl rfl
     [1, 2, 3] (fun _ => [[4]]) 99⟩

/-- A `CONNECTED` session as the server creates it (both callbacks set). -/
def c1conn : KCPConnection :=
  { conv := 7, addr := { host := 1, port := 2 }, state := ConnState.CONNECTED
    last_active_time := 0, kcp := some { ops := [], recvQueue := [] }
    udp_handle := true, hasDataCallback := true, hasCloseCallback := true }

/-- A running server holding that one session. -/
def c1server : KCPServer :=
  { KCPServer.create with running := true, timerActive := true
                          recvActive := true, connections := [(7, c1conn)]
                          hasNewConnectionCallback := true }

/-- C1 counterexample: stopping a running server that holds one `CONNECTED`
session leaves the session in the table, still `CONNECTED`, and fires no
close callback — refuting the claim that `stop()` closes every remaining
session (firing each close callback and removing each entry) and leaves the
table empty. -/
theorem C1_counterexample :
    (c1server.stop).1.connections = [(7, c1conn)] ∧
    (c1server.stop).2 = [] ∧
    c1conn.state = ConnState.CONNECTED := by decide

/-- C1 (amended): `stop()` on a running server halts the periodic sweep
(timer), datagram reception and the event loop, but closes no session and
returns the table exactly as it was, emitting no event; the table is
emptied only by the destructor, whose `connections_.clear()` destroys the
sessions without firing any close callback. -/
theorem C1_stop_behaviour (s : KCPServer) (h : s.running = true) :
    (s.stop).1.connections = s.connections ∧ (s.stop).2 = [] ∧
    (s.stop).1.running = false ∧ (s.stop).1.timerActive = false ∧
    (s.stop).1.recvActive = false ∧ (s.stop).1.loopStopped = true ∧
    (s.destroy).1.connections = [] ∧ (s.destroy).2 = [] := by
  unfold KCPServer.destroy KCPServer.stop
  simp [h]

/-- Witness for `C1_stop_behaviour` on the concrete running server. -/
theorem C1_stop_behaviour_witness :
    c1server.running = true ∧
    ((c1server.stop).1.connections = c1server.connections ∧
     (c1server.stop).2 = [] ∧
     (c1server.stop).1.running = false ∧ (c1server.stop).1.timerActive = false ∧
     (c1server.stop).1.recvActive = false ∧ (c1server.stop).1.loopStopped = true ∧
     (c1server.destroy).1.connections = [] ∧ (c1server.destroy).2 = []) :=
  ⟨rfl, C1_stop_behaviour c1server rfl⟩

/-- One timed-out session: last active at 0, close callback registered by
the server. -/
def c2conn : KCPConnection :=
  { conv := 7, addr := { host := 1, port := 2 }, state := ConnState.CONNECTED
    last_active_time := 0, kcp := some { ops := [], recvQueue := [] }
    udp_handle := true, hasDataCallback := true, hasCloseCallback := true }

/-- A running server (timeout 30000 ms) holding that session. -/
def c2server : KCPServer :=
  { KCPServer.create with running := true, connections := [(7, c2conn)] }

/-- C2 (code bug): sweeping at `now = 40000` a table whose one session was
last active at 0 (timed out, timeout 30000), `update_connections` calls
`close()`; the close callback the server registered (`on_connection_close`)
erases the entry from the map, invalidating the loop's iterator; the loop
then executes `it = connections_.erase(it)` on that invalidated iterator —
a double erase, undefined behaviour in C++.  Traced here: the session is
timed out; `close()` fires the callback once; after `on_connection_close`
the key is already absent; and the sweep's stale-iterator-erase flag is
raised. -/
theorem C2_sweep_double_erase :
    c2conn.is_timeout 40000 c2server.timeout = true ∧
    (c2conn.close).2.1 = [Event.closeCb 7] ∧
    (c2server.on_connection_close 7).connections = [] ∧
    (c2server.update_connections 40000).2.2 = true := by decide

/-- Looking up the key just stored always yields the stored connection. -/
lemma lookupConn_insertConn_self (l : List (Nat × KCPConnection)) (k : Nat)
    (c : KCPConnection) : lookupConn (insertConn l k c) k = some c := by
  induction l with
  | nil => simp [insertConn, lookupConn]
  | cons p t ih =>
    obtain ⟨k0, c0⟩ := p
    by_cases h : k0 = k
    · simp [insertConn, lookupConn, h]
    · simp [insertConn, lookupConn, h, ih]

lemma countKey_cons (p : Nat × KCPConnection) (t : List (Nat × KCPConnection))
    (k : Nat) :
    countKey (p :: t) k = (if p.1 = k then 1 else 0) + countKey t k := by
  by_cases h : p.1 = k
  · simp [countKey, List.filter_cons, h]
    omega
  · simp [countKey, List.filter_cons, h]

/-- Storing under a key that appears at most once (the `std::map`
key-uniqueness invariant) leaves exactly one entry with that key. -/
lemma countKey_insertConn (l : List (Nat × KCPConnection)) (k : Nat)
    (c : KCPConnection) (h : countKey l k ≤ 1) :
    countKey (insertConn l k c) k = 1 := by
  induction l with
  | nil => simp [insertConn, countKey]
  | cons p t ih =>
    obtain ⟨k0, c0⟩ := p
    rw [countKey_cons] at h
    by_cases hk : k0 = k
    · subst hk
      simp at h
      rw [show insertConn ((k0, c0) :: t) k0 c = (k0, c) :: t by
            simp [insertConn]]
      rw [countKey_cons]
      simp
      omega
    · rw [show insertConn ((k0, c0) :: t) k c = (k0, c0) :: insertConn t k c by
            simp [insertConn, hk]]
      rw [countKey_cons]
      simp [hk] at h ⊢
      exact ih h

/-- The connection `find_or_create_connection` builds for an unknown conv:
bound to the peer address, configured with the captured tunables, marked
`CONNECTED`, activity-stamped, with the server's callback adapters set. -/
def freshConn (conv : Nat) (addr : Addr) (cfg : KCPConfig) (now : Nat) :
    KCPConnection :=
  { conv := conv, addr := addr, state := ConnState.CONNECTED
    last_active_time := now
    kcp := some { ops := [EngineOp.configure cfg], recvQueue := [] }
    udp_handle := true, hasDataCallback := true, hasCloseCallback := true }

/-- The same connection after `handle_udp_data` has additionally stamped it,
fed the datagram to its engine and drained the decoded messages. -/
def freshAfter (conv : Nat) (addr : Addr) (cfg : KCPConfig) (now : Nat)
    (data : List Nat) (decode : List Nat → List (List Nat)) : KCPConnection :=
  { conv := conv, addr := addr, state := ConnState.CONNECTED
    last_active_time := now
    kcp := some { ops := [EngineOp.configure cfg, EngineOp.input data]
                  recvQueue := (drainQueue (decode data)).2 }
    udp_handle := true, hasDataCallback := true, hasCloseCallback := true }

/-- Evaluation of `find_or_create_connection` on an unknown conv. -/
lemma find_or_create_new (s : KCPServer) (conv : Nat) (addr : Addr) (now : Nat)
    (habs : lookupConn s.connections conv = none) :
    s.find_or_create_connection conv addr now =
      ({ s with connections :=
          insertConn s.connections conv (freshConn conv addr s.config now) },
       if s.hasNewConnectionCallback then [Event.newSession conv] else []) := by
  unfold KCPServer.find_or_create_connection
  rw [habs]
  rfl

/-- Evaluation of `handle_udp_data` on a well-formed datagram whose conv is
not yet in the table. -/
lemma handle_udp_data_new (s : KCPServer) (data : List Nat) (addr : Addr)
    (now : Nat) (decode : List Nat → List (List Nat))
    (hlen : ¬ data.length < 24)
    (habs : lookupConn s.connections (readU32LE data) = none) :
    s.handle_udp_data data addr now decode =
      ({ s with connections :=
          (insertConn (insertConn s.connections (readU32LE data)
              (freshConn (readU32LE data) addr s.config now)) (readU32LE data)
            (freshAfter (readU32LE data) addr s.config now data decode)) },
       (if s.hasNewConnectionCallback then [Event.newSession (readU32LE data)]
        else []) ++
         (drainQueue (decode data)).1.map (Event.dataCb (readU32LE data))) := by
  unfold KCPServer.handle_udp_data
  simp only [if_neg hlen, find_or_create_new s (readU32LE data) addr now habs,
    lookupConn_insertConn_self]
  rfl

/-- Evaluation of `handle_udp_data` on a well-formed datagram whose conv is
already present: no creation, no notification; the existing connection is
stamped, fed and drained, then stored back. -/
lemma handle_udp_data_existing (s : KCPServer) (data : List Nat) (addr : Addr)
    (now : Nat) (decode : List Nat → List (List Nat))
    (hlen : ¬ data.length < 24) (c : KCPConnection)
    (hfound : lookupConn s.connections (readU32LE data) = some c) :
    s.handle_udp_data data addr now decode =
      ({ s with connections :=
          (insertConn s.connections (readU32LE data)
            (((c.update_active_time now).input data decode).recv).1) },
       ((((c.update_active_time now).input data decode).recv).2.1)) := by
  unfold KCPServer.handle_udp_data KCPServer.find_or_create_connection
  simp only [if_neg hlen, hfound]
  rfl

/-- C4: for a well-formed datagram (at least 24 bytes) carrying a session id
`conv ≠ 0`, after demux exactly one session with that conv is in the table
(given the `std::map` key-uniqueness invariant, phrased as: the key occurs
at most once beforehand).  When the conv was previously unknown, the created
session is bound to the datagram's peer address, its engine is configured
with the server's current tunables before anything else, it is marked
`CONNECTED`, its activity stamp is set, and the datagram is fed to its
engine; the registered new-session notification fires exactly once, as the
very first event of the demux — in particular before any data delivery for
that session. -/
theorem C4_demux_session_creation (s : KCPServer) (data : List Nat) (addr : Addr)
    (now : Nat) (decode : List Nat → List (List Nat))
    (hlen : 24 ≤ data.length)
    (hone : countKey s.connections (readU32LE data) ≤ 1)
    (hcb : s.hasNewConnectionCallback = true)
    (hid : readU32LE data ≠ 0) :
    countKey (s.handle_udp_data data addr now decode).1.connections
      (readU32LE data) = 1 ∧
    (lookupConn s.connections (readU32LE data) = none →
      (∃ conn, lookupConn (s.handle_udp_data data addr now decode).1.connections
          (readU32LE data) = some conn ∧
        conn.addr = addr ∧ conn.state = ConnState.CONNECTED ∧
        conn.last_active_time = now ∧
        (∃ e, conn.kcp = some e ∧
          e.ops = [EngineOp.configure s.config, EngineOp.input data])) ∧
      (∃ tail, (s.handle_udp_data data addr now decode).2 =
          Event.newSession (readU32LE data) :: tail ∧
        Event.newSession (readU32LE data) ∉ tail)) := by
  have hlen2 : ¬ data.length < 24 := by omega
  constructor
  · cases hl : lookupConn s.connections (readU32LE data) with
    | none =>
      rw [handle_udp_data_new s data addr now decode hlen2 hl]
      exact countKey_insertConn _ _ _
        (le_of_eq (countKey_insertConn _ _ _ hone))
    | some c =>
      rw [handle_udp_data_existing s data addr now decode hlen2 c hl]
      exact countKey_insertConn _ _ _ hone
  · intro hl
    rw [handle_udp_data_new s data addr now decode hlen2 hl]
    refine ⟨⟨freshAfter (readU32LE data) addr s.config now data decode,
      lookupConn_insertConn_self _ _ _, rfl, rfl, rfl, ⟨_, rfl, rfl⟩⟩,
      ⟨(drainQueue (decode data)).1.map (Event.dataCb (readU32LE data)),
        ?_, ?_⟩⟩
    · simp [hcb]
    · simp

/-- A fresh server with the user's new-session notification registered. -/
def c4server : KCPServer :=
  { KCPServer.create with running := true, hasNewConnectionCallback := true }

/-- A 24-byte datagram with conv = 1 (little-endian first four bytes). -/
def c4data : List Nat := 1 :: List.replicate 23 0

/-- Witness for `C4_demux_session_creation` on a concrete fresh server and
datagram. -/
theorem C4_demux_session_creation_witness :
    24 ≤ c4data.length ∧
    countKey c4server.connections (readU32LE c4data) ≤ 1 ∧
    c4server.hasNewConnectionCallback = true ∧ readU32LE c4data ≠ 0 ∧
    (countKey (c4server.handle_udp_data c4data { host := 3, port := 4 } 500
        (fun _ => [[9]])).1.connections (readU32LE c4data) = 1 ∧
     (lookupConn c4server.connections (readU32LE c4data) = none →
       (∃ conn, lookupConn (c4server.handle_udp_data c4data
             { host := 3, port := 4 } 500 (fun _ => [[9]])).1.connections
           (readU32LE c4data) = some conn ∧
         conn.addr = { host := 3, port := 4 } ∧
         conn.state = ConnState.CONNECTED ∧
         conn.last_active_time = 500 ∧
         (∃ e, conn.kcp = some e ∧
           e.ops = [EngineOp.configure c4server.config,
                    EngineOp.input c4data])) ∧
       (∃ tail, (c4server.handle_udp_data c4data { host := 3, port := 4 } 500
           (fun _ => [[9]])).2 =
           Event.newSession (readU32LE c4data) :: tail ∧
         Event.newSession (readU32LE c4data) ∉ tail))) :=
  ⟨by decide, by decide, rfl, by decide,
   C4_demux_session_creation c4server c4data { host := 3, port := 4 } 500
     (fun _ => [[9]]) (by decide) (by decide) rfl (by decide)⟩

/-- A datagram whose first four bytes are zero parses to conv 0. -/
lemma readU32LE_zero (data : List Nat) (h : data.take 4 = [0, 0, 0, 0]) :
    readU32LE data = 0 := by
  cases data with
  | nil => simp at h
  | cons b0 t0 =>
    cases t0 with
    | nil => simp at h
    | cons b1 t1 =>
      cases t1 with
      | nil => simp at h
      | cons b2 t2 =>
        cases t2 with
        | nil => simp at h
        | cons b3 t3 =>
          simp [List.take] at h
          obtain ⟨h0, h1, h2, h3⟩ := h
          subst h0; subst h1; subst h2; subst h3
          rfl

/-- C9: the server never checks the parsed conv for zero — a well-formed
datagram (at least 24 bytes) whose first four bytes are all zero makes
demux create and store a session with id 0, mark it `CONNECTED`, bind it to
the peer address, feed the datagram to its engine, and fire the new-session
notification for it, exactly as for any other id. -/
theorem C9_zero_conv_session (s : KCPServer) (data : List Nat) (addr : Addr)
    (now : Nat) (decode : List Nat → List (List Nat))
    (hlen : 24 ≤ data.length) (hz : data.take 4 = [0, 0, 0, 0])
    (habs : lookupConn s.connections 0 = none)
    (hcb : s.hasNewConnectionCallback = true) :
    (∃ conn, lookupConn (s.handle_udp_data data addr now decode).1.connections 0 =
        some conn ∧
      conn.conv = 0 ∧ conn.state = ConnState.CONNECTED ∧ conn.addr = addr ∧
      (∃ e, conn.kcp = some e ∧ EngineOp.input data ∈ e.ops)) ∧
    (∃ tail, (s.handle_udp_data data addr now decode).2 =
        Event.newSession 0 :: tail) := by
  have hz0 : readU32LE data = 0 := readU32LE_zero data hz
  have hlen2 : ¬ data.length < 24 := by omega
  have habs2 : lookupConn s.connections (readU32LE data) = none := by
    rw [hz0]; exact habs
  have h := handle_udp_data_new s data addr now decode hlen2 habs2
  rw [hz0] at h
  rw [h]
  refine ⟨⟨freshAfter 0 addr s.config now data decode,
    lookupConn_insertConn_self _ _ _, rfl, rfl, rfl, ⟨_, rfl, by simp⟩⟩,
    ⟨(drainQueue (decode data)).1.map (Event.dataCb 0), by simp [hcb]⟩⟩

/-- An all-zero 24-byte datagram. -/
def c9data : List Nat := List.replicate 24 0

/-- Witness for `C9_zero_conv_session` on a concrete all-zero datagram. -/
theorem C9_zero_conv_session_witness :
    24 ≤ c9data.length ∧ c9data.take 4 = [0, 0, 0, 0] ∧
    lookupConn c4server.connections 0 = none ∧
    c4server.hasNewConnectionCallback = true ∧
    ((∃ conn, lookupConn (c4server.handle_udp_data c9data
          { host := 3, port := 4 } 500 (fun _ => [])).1.connections 0 =
        some conn ∧
      conn.conv = 0 ∧ conn.state = ConnState.CONNECTED ∧
      conn.addr = { host := 3, port := 4 } ∧
      (∃ e, conn.kcp = some e ∧ EngineOp.input c9data ∈ e.ops)) ∧
     (∃ tail, (c4server.handle_udp_data c9data { host := 3, port := 4 } 500
         (fun _ => [])).2 = Event.newSession 0 :: tail)) :=
  ⟨by decide, by decide, rfl, rfl,
   C9_zero_conv_session c4server c9data { host := 3, port := 4 } 500
     (fun _ => []) (by decide) (by decide) rfl rfl⟩

/-- C10: while a connection exists, the client feeds every non-empty,
non-truncated inbound datagram to it with no validation at all — the
sender's address is never compared with the server's, and the datagram's
leading session-id field and length are never inspected: the connection's
`last_active_time` is set to the current time and the raw bytes are passed
to the engine's input. -/
theorem C10_client_feeds_engine (cl : KCPClient) (data : List Nat) (now : Nat)
    (decode : List Nat → List (List Nat)) (c : KCPConnection) (e : Engine)
    (hconn : cl.connection = some c) (hkcp : c.kcp = some e) (hne : data ≠ []) :
    ∃ c2, (cl.on_udp_recv false data true false now decode).1.connection =
        some c2 ∧
      c2.last_active_time = now ∧
      (∃ e2, c2.kcp = some e2 ∧ e2.ops = e.ops ++ [EngineOp.input data]) := by
  have hlen : ¬ data.length = 0 := by simpa using hne
  have h0 : cl.on_udp_recv false data true false now decode =
      cl.handle_udp_data data now decode := by
    unfold KCPClient.on_udp_recv
    simp [hlen]
  rw [h0]
  unfold KCPClient.handle_udp_data KCPConnection.update_active_time
    KCPConnection.input KCPConnection.recv
  simp only [hconn, hkcp]
  exact ⟨_, rfl, rfl, _, rfl, rfl⟩

/-- A client connection with one configure call already on its engine. -/
def c10conn : KCPConnection :=
  { conv := 4, addr := { host := 9, port := 9 }, state := ConnState.CONNECTED
    last_active_time := 3
    kcp := some { ops := [EngineOp.configure KCPServer.create.config]
                  recvQueue := [] }
    udp_handle := true, hasDataCallback := true, hasCloseCallback := true }

/-- A connected client holding that connection. -/
def c10client : KCPClient :=
  { running := true, config := KCPServer.create.config
    connection := some c10conn }

/-- Witness for `C10_client_feeds_engine` on a concrete short (3-byte,
header-less) datagram — fed to the engine regardless. -/
theorem C10_client_feeds_engine_witness :
    c10client.connection = some c10conn ∧
    c10conn.kcp = some { ops := [EngineOp.configure KCPServer.create.config]
                         recvQueue := [] } ∧
    ([(5 : Nat), 6, 7] ≠ []) ∧
    (∃ c2, (c10client.on_udp_recv false [5, 6, 7] true false 777
        (fun _ => [])).1.connection = some c2 ∧
      c2.last_active_time = 777 ∧
      (∃ e2, c2.kcp = some e2 ∧
        e2.ops = [EngineOp.configure KCPServer.create.config] ++
          [EngineOp.input [5, 6, 7]])) :=
  ⟨rfl, rfl, by decide,
   C10_client_feeds_engine c10client [5, 6, 7] 777 (fun _ => []) c10conn
     { ops := [EngineOp.configure KCPServer.create.config], recvQueue := [] }
     rfl rfl (by decide)⟩

end KCPLibuv
